import Mathlib

/-!
Verification development for the adaptive multi-domain data-sampling
controller implemented in `multiuat-multidomain-translation.py`
(`MultiUATMultidomainTranslation` and its configuration dataclass).

The embedding keeps the control structure of the source: the per-step
reweighting guard, the per-domain reward loop with failure propagation,
the data-actor optimization loops, the Monte-Carlo reward formulas and
the sampling-log writer.  The host collaborators that live outside the
source file (the translation model's forward pass, the data-actor module
and its optimizer, the filesystem) are passed in as explicit function
parameters, exactly as the Python methods receive them as arguments.
Probability and loss arithmetic is over `ℝ`.
-/

open BigOperators

namespace MultiUAT

/-- Softmax over `n` logits (`torch.nn.functional.softmax(logits, dim=-1)`). -/
noncomputable def softmax (n : ℕ) (l : Fin n → ℝ) : Fin n → ℝ :=
  fun i => Real.exp (l i) / ∑ j, Real.exp (l j)

/-- Mean squared error with mean reduction (`torch.nn.functional.mse_loss`). -/
noncomputable def mseLoss (n : ℕ) (p t : Fin n → ℝ) : ℝ :=
  (∑ i, (p i - t i) ^ 2) / n

/-- The empty string, the default value of the `sample_prob_log` option. -/
def emptyPath : String := ""

/-- Fields of `MultiUATMultidomainTranslationConfig` read by the controller.
`samplePlog` is an `Option` because `write_sampling_log` guards on
`is not None`; the dataclass default is the (non-`None`) empty string. -/
structure Config where
  data : Option String
  sourceLang : Option String
  targetLang : Option String
  temperature : String
  maxSampleTokens : ℕ
  domainFile : String
  dataActorKind : String
  dataActorOptimStep : ℕ
  updateSamplingInterval : ℕ
  samplePlog : Option String
  K : ℕ
  rewardType : String

/-- The dataclass defaults of `MultiUATMultidomainTranslationConfig`. -/
def defaultConfig : Config where
  data := none
  sourceLang := none
  targetLang := none
  temperature := "1"
  maxSampleTokens := 1024
  domainFile := emptyPath
  dataActorKind := "base"
  dataActorOptimStep := 200
  updateSamplingInterval := 2000
  samplePlog := some emptyPath
  K := 10
  rewardType := "entropy"

/-- The reward branches present in `update_sample_probability`. -/
inductive RewardKind
  | enttp
  | enteos
  | pretp
  | exptp
  | vartp
  | comtp
  | xentropy
deriving DecidableEq

/-- Failures of the reward-estimation path: the `RuntimeError("undefined
reward")` raised by the dispatch chain, and a failure inside a domain's
reward computation (degenerate probe batch, failed forward pass). -/
inductive EstErr
  | undefinedReward
  | estimationFailure
deriving DecidableEq

/-- The `reward_type` dispatch chain of `update_sample_probability`
(lines 541-557): seven recognized strings, and a raised
`RuntimeError("undefined reward")` for everything else. -/
def rewardDispatch (rt : String) : Except EstErr RewardKind :=
  if rt = "enttp" then Except.ok RewardKind.enttp
  else if rt = "enteos" then Except.ok RewardKind.enteos
  else if rt = "pretp" then Except.ok RewardKind.pretp
  else if rt = "exptp" then Except.ok RewardKind.exptp
  else if rt = "vartp" then Except.ok RewardKind.vartp
  else if rt = "comtp" then Except.ok RewardKind.comtp
  else if rt = "xentropy" then Except.ok RewardKind.xentropy
  else Except.error EstErr.undefinedReward

/-- Errors that `setup_task` can raise. -/
inductive SetupErr
  | noData
  | cannotInferLanguagePair
  | dictMismatch
deriving DecidableEq

/-- External answers consumed by `setup_task`: the language pair inferred
from the data directory, and whether the two loaded dictionaries agree on
pad/eos/unk (the three asserts). -/
structure SetupEnv where
  inferredPair : Option (String × String)
  dictsConsistent : Bool

/-- Modelled from the spec: `utils.split_paths` (external fairseq helper,
outside this source file) splits the colon-separated directory list; a
missing value yields no paths and any string value yields at least one
path, which is all `setup_task`'s emptiness assert observes. -/
def splitPaths (d : Option String) : List String :=
  match d with
  | none => []
  | some s => [s]

/-- Language-pair resolution of `setup_task`: explicit config values win,
otherwise the pair inferred from the first data path. -/
def resolveLangPair (cfg : Config) (env : SetupEnv) : Option (String × String) :=
  match cfg.sourceLang, cfg.targetLang with
  | some s, some t => some (s, t)
  | _, _ => env.inferredPair

/-- The validation performed by `setup_task` (lines 363-394): non-empty
path list, resolvable language pair, consistent dictionaries.  Note that
no field related to the reward metric is inspected. -/
def setupTask (env : SetupEnv) (cfg : Config) : Except SetupErr (String × String) :=
  if (splitPaths cfg.data).isEmpty then Except.error SetupErr.noData
  else
    match resolveLangPair cfg env with
    | none => Except.error SetupErr.cannotInferLanguagePair
    | some pair =>
      if env.dictsConsistent then Except.ok pair else Except.error SetupErr.dictMismatch

/-- Failure of the host `open(path, "a")` call inside `write_sampling_log`. -/
inductive LogWriteError
  | fileNotFound
deriving DecidableEq

/-- Modelled from the spec (host filesystem, outside this source file):
opening a path in append mode succeeds for every non-empty path in a
writable directory and fails (`FileNotFoundError`) for the empty path. -/
def openAppendOk (path : String) : Bool := path != emptyPath

/-- `write_sampling_log` (lines 748-751): skip silently when the
configured path is `None`, otherwise open the path for appending and
append one comma-separated line. -/
def writeSamplingLog (cfgPath : Option String) (log : List String) (line : String) :
    Except LogWriteError (List String) :=
  match cfgPath with
  | none => Except.ok log
  | some p =>
    if openAppendOk p then Except.ok (log ++ [line])
    else Except.error LogWriteError.fileNotFound

/-- The controller state held on the task object: the `data_actor_pretrained`
flag, the `current_sampling_update_num` guard key, the active sampling
probability vector (`datasets["train"].p`), the sampling-log contents and
the data actor's parameters (type `A`, the actor module is external). -/
structure TaskState (n : ℕ) (A : Type) where
  dataActorPretrained : Bool
  currentSamplingUpdateNum : ℕ
  p : Fin n → ℝ
  samplingLog : List (Fin n → ℝ)
  actor : A

/-- External collaborators that one `train_step` call receives as
arguments: whether a data actor was passed, the outcome of each domain's
reward computation this cycle (the model's stochastic forward passes are
external), one optimizer step of the actor-update loop given the reward
vector, the actor's forward pass on the constant feature, and the outcome
of the pretraining loop on the actor. -/
structure Env (n : ℕ) (A : Type) where
  hasActor : Bool
  est : Fin n → Except EstErr ℝ
  actorStep : (Fin n → ℝ) → A → A
  actorLogits : A → Fin n → ℝ
  pretrainFn : A → A

/-- Result of one `train_step` call: the state of the task object
afterwards, the exception that escaped (if any), and whether a
reweighting cycle committed in this call. -/
structure StepResult (n : ℕ) (A : Type) where
  state : TaskState n A
  raised : Option EstErr
  fired : Bool

/-- The per-domain reward loop of `update_sample_probability`: rewards are
collected in domain order and the first failure aborts the whole loop by
propagating its exception. -/
def collectRewards : List (Except EstErr ℝ) → Except EstErr (List ℝ)
  | [] => Except.ok []
  | x :: xs =>
    match x with
    | Except.error e => Except.error e
    | Except.ok r => (collectRewards xs).map (fun rs => r :: rs)

/-- The reweighting guard of `train_step` (line 510):
`update_num % interval == 0 and update_num != 0 and data_actor is not None
and current_sampling_update_num != update_num`. -/
def reweightGuard (cfg : Config) (cur u : ℕ) (hasActor : Bool) : Bool :=
  (u % cfg.updateSamplingInterval == 0) && (u != 0) && hasActor && (cur != u)

/-- The lazy pretraining at the top of `train_step` (lines 502-504): run
the pretraining once, then set the `data_actor_pretrained` flag. -/
def maybePretrain {n : ℕ} {A : Type} (env : Env n A) (st : TaskState n A) : TaskState n A :=
  if !st.dataActorPretrained && env.hasActor then
    { st with actor := env.pretrainFn st.actor, dataActorPretrained := true }
  else st

/-- The actor-update loop of `update_sample_probability` (lines 572-581):
`data_actor_optim_step` optimizer steps with the reward list as the
gradient scale. -/
noncomputable def actorLoopResult {n : ℕ} {A : Type} (cfg : Config) (env : Env n A)
    (rs : List ℝ) (a : A) : A :=
  (env.actorStep (fun i => rs.getD i.val 0))^[cfg.dataActorOptimStep] a

/-- `update_sample_probability` (lines 531-586): collect one reward per
domain (first failure propagates), run the actor-update loop, and return
the softmax of the resulting actor logits together with the updated
actor. -/
noncomputable def updateSampleProbability {n : ℕ} {A : Type} (cfg : Config) (env : Env n A)
    (a : A) : Except EstErr (A × (Fin n → ℝ)) :=
  match collectRewards ((List.finRange n).map env.est) with
  | Except.error e => Except.error e
  | Except.ok rs =>
    Except.ok (actorLoopResult cfg env rs a,
      softmax n (env.actorLogits (actorLoopResult cfg env rs a)))

/-- `train_step` (lines 477-529) restricted to the controller's own
effects: lazy pretraining, then — when the reweighting guard holds — the
reweighting cycle, which on success swaps in the new probability vector,
appends it to the sampling log and records the update number, and on
failure lets the exception escape with all controller state unchanged.
The host forward/backward on the training sample is external. -/
noncomputable def trainStep {n : ℕ} {A : Type} (cfg : Config) (env : Env n A)
    (st : TaskState n A) (u : ℕ) : StepResult n A :=
  if reweightGuard cfg (maybePretrain env st).currentSamplingUpdateNum u env.hasActor then
    match updateSampleProbability cfg env (maybePretrain env st).actor with
    | Except.error e => ⟨maybePretrain env st, some e, false⟩
    | Except.ok ap =>
      ⟨{ maybePretrain env st with
          actor := ap.1
          p := ap.2
          samplingLog := (maybePretrain env st).samplingLog ++ [ap.2]
          currentSamplingUpdateNum := u },
        none, true⟩
  else ⟨maybePretrain env st, none, false⟩

/-- A sequence of `train_step` calls, each with its `update_num` and its
external collaborators; returns the final controller state and the list
of update numbers at which a reweighting cycle committed. -/
noncomputable def runTrace {n : ℕ} {A : Type} (cfg : Config) :
    List (ℕ × Env n A) → TaskState n A → TaskState n A × List ℕ
  | [], st => (st, [])
  | (u, env) :: rest, st =>
    let r := trainStep cfg env st u
    let tail := runTrace cfg rest r.state
    (tail.1, (if r.fired then [u] else []) ++ tail.2)

/-- Modelled from the spec: `MultidomainCorpusSampledDataset.get_sample_prob`
(repository code outside this source file) computes the initial sampling
distribution `p_i = size_i^(1/T) / Σ_j size_j^(1/T)`. -/
noncomputable def initialProb (n : ℕ) (sizes : Fin n → ℝ) (T : ℝ) : Fin n → ℝ :=
  fun i => sizes i ^ ((1 : ℝ) / T) / ∑ j, sizes j ^ ((1 : ℝ) / T)

/-- The controller state right after setup: pretraining not yet run, no
reweighting recorded, size-based initial distribution active and logged. -/
noncomputable def initState (n : ℕ) {A : Type} (sizes : Fin n → ℝ) (T : ℝ) (a0 : A) :
    TaskState n A where
  dataActorPretrained := false
  currentSamplingUpdateNum := 0
  p := initialProb n sizes T
  samplingLog := [initialProb n sizes T]
  actor := a0

/-- The exit threshold of the pretraining loop (`while l > 0.00000001`). -/
noncomputable def pretrainThreshold : ℝ := 0.00000001

/-- Actor parameters after `k` iterations of the pretraining loop body
(each iteration ends with one optimizer step). -/
def pretrainState {A : Type} (gstep : A → A) (a0 : A) (k : ℕ) : A :=
  gstep^[k] a0

/-- The loss measured inside one pretraining iteration (lines 701-704):
the MSE between the softmax of the actor's logits and the target
distribution. -/
noncomputable def pretrainLoss (n : ℕ) {A : Type} (al : A → Fin n → ℝ)
    (target : Fin n → ℝ) (a : A) : ℝ :=
  mseLoss n (softmax n (al a)) target

/-- The pretraining loop of `pretrain_data_actor` exits after the
iteration that measures a loss at or below the threshold; all earlier
iterations measured a larger loss.  The loop condition is the only exit:
there is no step cap in the source. -/
def pretrainExitsAt (n : ℕ) {A : Type} (gstep : A → A) (al : A → Fin n → ℝ)
    (target : Fin n → ℝ) (a0 : A) (k : ℕ) : Prop :=
  pretrainLoss n al target (pretrainState gstep a0 k) ≤ pretrainThreshold ∧
    ∀ j < k, pretrainThreshold < pretrainLoss n al target (pretrainState gstep a0 j)

/-- `pretrain_data_actor` returns at all: some iterate's measured loss
reaches the threshold. -/
def pretrainReturns (n : ℕ) {A : Type} (gstep : A → A) (al : A → Fin n → ℝ)
    (target : Fin n → ℝ) (a0 : A) : Prop :=
  ∃ k, pretrainLoss n al target (pretrainState gstep a0 k) ≤ pretrainThreshold

/-- The probability vector reported after the loop exits at iteration `k`
(lines 714-717): the exiting iteration still performed `loss.backward()`
and `data_optimizer.step()` after measuring its loss, so the reported
softmax is taken one optimizer step past the measured parameters. -/
noncomputable def pretrainFinalProb (n : ℕ) {A : Type} (gstep : A → A)
    (al : A → Fin n → ℝ) (a0 : A) (k : ℕ) : Fin n → ℝ :=
  softmax n (al (gstep (pretrainState gstep a0 k)))

/-- `torch.max(prob, dim=-1)` over the vocabulary axis. -/
noncomputable def vocabMax (V : ℕ) (f : Fin (V + 1) → ℝ) : ℝ :=
  Finset.univ.sup' Finset.univ_nonempty f

/-- `(sample["target"] != self.tgt_dict.pad()).float()`: 1 at non-padding
target positions, 0 at padding positions. -/
noncomputable def padMask (B T padIdx : ℕ) (target : Fin (B + 1) → Fin T → ℕ)
    (b : Fin (B + 1)) (t : Fin T) : ℝ :=
  if target b t = padIdx then 0 else 1

/-- `(sample["target"] == self.tgt_dict.eos()).float()`: 1 exactly at
end-of-sequence positions. -/
noncomputable def eosMask (B T eosIdx : ℕ) (target : Fin (B + 1) → Fin T → ℕ)
    (b : Fin (B + 1)) (t : Fin T) : ℝ :=
  if target b t = eosIdx then 1 else 0

/-- One trial of `compute_pretp_monte_carlo` (lines 599-603): per
sentence, the exponential of the masked sum of per-position maximal
log-probabilities (the product of the max token probabilities over
non-padding positions), then `torch.mean` over the batch. -/
noncomputable def pretpTrial (B T V : ℕ) (mask : Fin (B + 1) → Fin T → ℝ)
    (logp : Fin (B + 1) → Fin T → Fin (V + 1) → ℝ) : ℝ :=
  (∑ b, Real.exp (∑ t, vocabMax V (logp b t) * mask b t)) / (B + 1)

/-- The Monte-Carlo mean of the per-trial sequence confidences in
`compute_pretp_monte_carlo` (`np.mean(np.array(lst))`). -/
noncomputable def pretpMeanConf (K B T V : ℕ) (mask : Fin (B + 1) → Fin T → ℝ)
    (logp : Fin (K + 1) → Fin (B + 1) → Fin T → Fin (V + 1) → ℝ) : ℝ :=
  (∑ k, pretpTrial B T V mask (logp k)) / (K + 1)

/-- `compute_pretp_monte_carlo` (lines 595-607): `1 - np.mean(lst)` where
each trial contributed the batch mean of `exp(sum(max_logprob * mask))`. -/
noncomputable def pretpReward (K B T V padIdx : ℕ)
    (target : Fin (B + 1) → Fin T → ℕ)
    (logp : Fin (K + 1) → Fin (B + 1) → Fin T → Fin (V + 1) → ℝ) : ℝ :=
  1 - pretpMeanConf K B T V (padMask B T padIdx target) logp

/-- Stated from the spec's words, for comparison with `pretpReward` (this
definition does not come from the source): one minus the mean, over the
trials, of the mean max probability over the non-padding target
positions. -/
noncomputable def specConfidenceDeficit (K B T V padIdx : ℕ)
    (target : Fin (B + 1) → Fin T → ℕ)
    (logp : Fin (K + 1) → Fin (B + 1) → Fin T → Fin (V + 1) → ℝ) : ℝ :=
  1 - (∑ k, (∑ b, ∑ t, Real.exp (vocabMax V (logp k b t)) * padMask B T padIdx target b t) /
        (∑ b, ∑ t, padMask B T padIdx target b t)) / (K + 1)

/-- Entropy of one categorical output distribution
(`Categorical(probs=prob).entropy()`). -/
noncomputable def catEntropy (V : ℕ) (p : Fin (V + 1) → ℝ) : ℝ :=
  -∑ v, p v * Real.log (p v)

/-- `torch.sum(target_mask)`: the number of valid positions of a mask. -/
noncomputable def maskSum (B T : ℕ) (mask : Fin (B + 1) → Fin T → ℝ) : ℝ :=
  ∑ b, ∑ t, mask b t

/-- One trial of the entropy rewards (lines 666-669 and 679-682):
`torch.sum(e * target_mask) / torch.sum(target_mask)` — the masked
entropy sum divided by the mask sum, with no guard on a zero mask sum. -/
noncomputable def entTrial (B T V : ℕ) (mask : Fin (B + 1) → Fin T → ℝ)
    (prob : Fin (B + 1) → Fin T → Fin (V + 1) → ℝ) : ℝ :=
  (∑ b, ∑ t, catEntropy V (prob b t) * mask b t) / maskSum B T mask

/-- `compute_enttp_monta_carlo` (lines 662-673): Monte-Carlo mean of the
masked mean entropy over non-padding target positions. -/
noncomputable def enttpReward (K B T V padIdx : ℕ)
    (target : Fin (B + 1) → Fin T → ℕ)
    (probs : Fin (K + 1) → Fin (B + 1) → Fin T → Fin (V + 1) → ℝ) : ℝ :=
  (∑ k, entTrial B T V (padMask B T padIdx target) (probs k)) / (K + 1)

/-- `compute_enteos_monta_carlo` (lines 675-686): the same computation
with the end-of-sequence mask. -/
noncomputable def enteosReward (K B T V eosIdx : ℕ)
    (target : Fin (B + 1) → Fin T → ℕ)
    (probs : Fin (K + 1) → Fin (B + 1) → Fin T → Fin (V + 1) → ℝ) : ℝ :=
  (∑ k, entTrial B T V (eosMask B T eosIdx target) (probs k)) / (K + 1)

/-! Concrete instances used by the counterexamples and witnesses. -/

/-- A reward-type string outside the recognized set. -/
def bogusKind : String := "bogus"

/-- A non-empty log path. -/
def xPath : String := "x"

/-- A source-language name for the setup counterexample. -/
def deStr : String := "de"

/-- A target-language name for the setup counterexample. -/
def enStr : String := "en"

/-- A one-directory data path for the setup counterexample. -/
def dataDirStr : String := "data-bin"

/-- A setup environment in which every external collaborator succeeds. -/
def setupEnvOk : SetupEnv where
  inferredPair := some (deStr, enStr)
  dictsConsistent := true

/-- A task state with three domains, pretraining already done, and the
size-proportional distribution of the spec's end-to-end example active. -/
noncomputable def stC : TaskState 3 Unit where
  dataActorPretrained := true
  currentSamplingUpdateNum := 0
  p := ![0.1, 0.4, 0.5]
  samplingLog := []
  actor := ()

/-- Collaborators for which every domain's reward computation fails. -/
noncomputable def envFail : Env 3 Unit where
  hasActor := true
  est := fun _ => Except.error EstErr.estimationFailure
  actorStep := fun _ a => a
  actorLogits := fun _ _ => 0
  pretrainFn := fun a => a

/-- Collaborators for which every reward computation succeeds. -/
noncomputable def envOk : Env 1 Unit where
  hasActor := true
  est := fun _ => Except.ok 1
  actorStep := fun _ a => a
  actorLogits := fun _ _ => 0
  pretrainFn := fun a => a

/-- A configuration with a short reweighting interval. -/
def cfgTwo : Config := { defaultConfig with updateSamplingInterval := 2 }

/-- A single-domain state with no reweighting recorded yet. -/
noncomputable def stZero : TaskState 1 Unit where
  dataActorPretrained := true
  currentSamplingUpdateNum := 0
  p := fun _ => 1
  samplingLog := []
  actor := ()

/-- A trace of three train-step calls at update numbers 2, 2 and 4. -/
noncomputable def traceW : List (ℕ × Env 1 Unit) := [(2, envOk), (2, envOk), (4, envOk)]

/-- Domain sizes of the spec's end-to-end example. -/
noncomputable def sizesW : Fin 3 → ℝ := ![100, 400, 500]

/-- Zero logits for a two-domain actor whose parameters are its logits. -/
noncomputable def zeroLogits : Fin 2 → ℝ := fun _ => 0

/-- A target distribution the constant actor can never fit. -/
noncomputable def skewTarget : Fin 2 → ℝ := ![1, 0]

/-- The uniform target distribution on two domains. -/
noncomputable def halfTarget : Fin 2 → ℝ := fun _ => 1 / 2

/-- An optimizer step that jumps to the logits `(10, 0)` regardless of the
current parameters. -/
noncomputable def jumpStep : (Fin 2 → ℝ) → Fin 2 → ℝ := fun _ => ![10, 0]

/-- Targets of a probe batch with one sentence of two non-padding
positions (padding index 0). -/
def cTargetOnes2 : Fin 1 → Fin 2 → ℕ := fun _ _ => 1

/-- A single stochastic trial whose max log-probability is `-log 2` at
both positions. -/
noncomputable def cLogpHalf2 : Fin 1 → Fin 1 → Fin 2 → Fin 1 → ℝ := fun _ _ _ _ => -Real.log 2

/-- Targets of a probe batch with one sentence of one non-padding
position (padding index 0). -/
def cTargetOnes1 : Fin 1 → Fin 1 → ℕ := fun _ _ => 1

/-- A trial with max log-probability `-log 2` at the single position. -/
noncomputable def cLogpHalf1 : Fin 1 → Fin 1 → Fin 1 → Fin 1 → ℝ := fun _ _ _ _ => -Real.log 2

/-- A trial with max log-probability `0` (full confidence). -/
noncomputable def cLogpZero1 : Fin 1 → Fin 1 → Fin 1 → Fin 1 → ℝ := fun _ _ _ _ => 0

/-- Targets of a degenerate probe batch: the single position is padding
when the padding index is 1. -/
def cTargetPad : Fin 1 → Fin 1 → ℕ := fun _ _ => 1

/-- Output probabilities for the degenerate-batch counterexample. -/
noncomputable def cProbsOne : Fin 1 → Fin 1 → Fin 1 → Fin 1 → ℝ := fun _ _ _ _ => 1

/-! Supporting lemmas. -/

theorem softmax_nonneg (n : ℕ) (l : Fin n → ℝ) (i : Fin n) : 0 ≤ softmax n l i :=
  div_nonneg (Real.exp_pos (l i)).le
    (Finset.sum_nonneg fun j _ => (Real.exp_pos (l j)).le)

theorem softmax_sum_one (n : ℕ) (hn : 0 < n) (l : Fin n → ℝ) :
    ∑ i, softmax n l i = 1 := by
  have hne : (Finset.univ : Finset (Fin n)).Nonempty := by
    exact ⟨⟨0, hn⟩, Finset.mem_univ _⟩
  have hpos : 0 < ∑ j, Real.exp (l j) :=
    Finset.sum_pos (fun j _ => Real.exp_pos (l j)) hne
  unfold softmax
  rw [← Finset.sum_div, div_self (ne_of_gt hpos)]

theorem initialProb_nonneg (n : ℕ) (sizes : Fin n → ℝ) (T : ℝ)
    (hs : ∀ i, 0 < sizes i) (i : Fin n) : 0 ≤ initialProb n sizes T i :=
  div_nonneg (Real.rpow_nonneg (hs i).le _)
    (Finset.sum_nonneg fun j _ => Real.rpow_nonneg (hs j).le _)

theorem initialProb_sum_one (n : ℕ) (hn : 0 < n) (sizes : Fin n → ℝ) (T : ℝ)
    (hs : ∀ i, 0 < sizes i) : ∑ i, initialProb n sizes T i = 1 := by
  have hne : (Finset.univ : Finset (Fin n)).Nonempty := by
    exact ⟨⟨0, hn⟩, Finset.mem_univ _⟩
  have hpos : 0 < ∑ j, sizes j ^ ((1 : ℝ) / T) :=
    Finset.sum_pos (fun j _ => Real.rpow_pos_of_pos (hs j) _) hne
  unfold initialProb
  rw [← Finset.sum_div, div_self (ne_of_gt hpos)]

theorem maybePretrain_p {n : ℕ} {A : Type} (env : Env n A) (st : TaskState n A) :
    (maybePretrain env st).p = st.p := by
  unfold maybePretrain; split <;> rfl

theorem maybePretrain_current {n : ℕ} {A : Type} (env : Env n A) (st : TaskState n A) :
    (maybePretrain env st).currentSamplingUpdateNum = st.currentSamplingUpdateNum := by
  unfold maybePretrain; split <;> rfl

theorem maybePretrain_samplingLog {n : ℕ} {A : Type} (env : Env n A) (st : TaskState n A) :
    (maybePretrain env st).samplingLog = st.samplingLog := by
  unfold maybePretrain; split <;> rfl

theorem collectRewards_error_of_mem (l : List (Except EstErr ℝ)) (e : EstErr)
    (h : Except.error e ∈ l) : ∃ e2, collectRewards l = Except.error e2 := by
  induction l with
  | nil => cases h
  | cons x xs ih =>
    cases x with
    | error e3 => exact ⟨e3, rfl⟩
    | ok r =>
      rcases List.mem_cons.mp h with h1 | h1
      · cases h1
      · obtain ⟨e2, h2⟩ := ih h1
        refine ⟨e2, ?_⟩
        simp only [collectRewards, h2]
        rfl

theorem updateSampleProbability_ok {n : ℕ} {A : Type} (cfg : Config) (env : Env n A)
    (a : A) (ap : A × (Fin n → ℝ)) (h : updateSampleProbability cfg env a = Except.ok ap) :
    ap.2 = softmax n (env.actorLogits ap.1) := by
  unfold updateSampleProbability at h
  rcases hc : collectRewards ((List.finRange n).map env.est) with e | rs
  · rw [hc] at h; cases h
  · rw [hc] at h
    simp only [Except.ok.injEq] at h
    rw [← h]

theorem reweightGuard_ne (cfg : Config) (cur u : ℕ) (ha : Bool)
    (h : reweightGuard cfg cur u ha = true) : cur ≠ u := by
  simp only [reweightGuard, Bool.and_eq_true, bne_iff_ne] at h
  exact h.2

theorem trainStep_p_cases {n : ℕ} {A : Type} (cfg : Config) (env : Env n A)
    (st : TaskState n A) (u : ℕ) :
    (trainStep cfg env st u).state.p = st.p ∨
      ∃ l, (trainStep cfg env st u).state.p = softmax n l := by
  unfold trainStep
  split
  · rcases h : updateSampleProbability cfg env (maybePretrain env st).actor with e | ap
    · simp only [h]
      exact Or.inl (maybePretrain_p env st)
    · simp only [h]
      exact Or.inr ⟨env.actorLogits ap.1, updateSampleProbability_ok cfg env _ ap h⟩
  · exact Or.inl (maybePretrain_p env st)

theorem trainStep_current_cases {n : ℕ} {A : Type} (cfg : Config) (env : Env n A)
    (st : TaskState n A) (u : ℕ) :
    ((trainStep cfg env st u).fired = true ∧
      (trainStep cfg env st u).state.currentSamplingUpdateNum = u ∧
      st.currentSamplingUpdateNum ≠ u) ∨
    ((trainStep cfg env st u).fired = false ∧
      (trainStep cfg env st u).state.currentSamplingUpdateNum =
        st.currentSamplingUpdateNum) := by
  unfold trainStep
  split
  case isTrue hguard =>
    rcases h : updateSampleProbability cfg env (maybePretrain env st).actor with e | ap
    · exact Or.inr ⟨rfl, maybePretrain_current env st⟩
    · refine Or.inl ⟨rfl, rfl, ?_⟩
      have hne := reweightGuard_ne cfg _ u env.hasActor hguard
      rwa [maybePretrain_current env st] at hne
  case isFalse h =>
    exact Or.inr ⟨rfl, maybePretrain_current env st⟩

theorem runTrace_prob_invariant {n : ℕ} {A : Type} (cfg : Config) (hn : 0 < n)
    (trace : List (ℕ × Env n A)) :
    ∀ st : TaskState n A, (∀ i, 0 ≤ st.p i) → ∑ i, st.p i = 1 →
      (∀ i, 0 ≤ (runTrace cfg trace st).1.p i) ∧
        ∑ i, (runTrace cfg trace st).1.p i = 1 := by
  induction trace with
  | nil =>
    intro st h1 h2
    exact ⟨by simpa [runTrace] using h1, by simpa [runTrace] using h2⟩
  | cons hd rest ih =>
    intro st h1 h2
    obtain ⟨u, env⟩ := hd
    simp only [runTrace]
    rcases trainStep_p_cases cfg env st u with hp | ⟨l, hp⟩
    · exact ih (trainStep cfg env st u).state
        (fun i => hp ▸ h1 i) (by rw [hp]; exact h2)
    · exact ih (trainStep cfg env st u).state
        (fun i => hp ▸ softmax_nonneg n l i)
        (by rw [hp]; exact softmax_sum_one n hn l)

theorem runTrace_fired_chain {n : ℕ} {A : Type} (cfg : Config)
    (trace : List (ℕ × Env n A)) :
    ∀ st : TaskState n A,
      (trace.map Prod.fst).Sorted (· ≤ ·) →
      (∀ v ∈ trace.map Prod.fst, st.currentSamplingUpdateNum ≤ v) →
      (runTrace cfg trace st).2.Sorted (· < ·) ∧
        ∀ f ∈ (runTrace cfg trace st).2, st.currentSamplingUpdateNum < f := by
  induction trace with
  | nil =>
    intro st _ _
    simp [runTrace]
  | cons hd rest ih =>
    intro st hs hcur
    obtain ⟨u, env⟩ := hd
    rw [List.map_cons, List.sorted_cons] at hs
    have hcu : st.currentSamplingUpdateNum ≤ u := hcur u (by simp)
    simp only [runTrace]
    rcases trainStep_current_cases cfg env st u with ⟨hf, hc, hne⟩ | ⟨hf, hc⟩
    · -- this call commits a reweighting at u
      have hltu : st.currentSamplingUpdateNum < u := lt_of_le_of_ne hcu hne
      have hrest := ih (trainStep cfg env st u).state hs.2
        (fun v hv => by rw [hc]; exact hs.1 v hv)
      simp only [hf, if_true, List.singleton_append]
      constructor
      · rw [List.sorted_cons]
        refine ⟨fun b hb => ?_, hrest.1⟩
        have := hrest.2 b hb
        rwa [hc] at this
      · intro f hf2
        rcases List.mem_cons.mp hf2 with rfl | hf2
        · exact hltu
        · have := hrest.2 f hf2
          rw [hc] at this
          exact lt_trans hltu this
    · -- no commit: the guard key is unchanged
      have hrest := ih (trainStep cfg env st u).state hs.2
        (fun v hv => by rw [hc]; exact le_trans hcu (hs.1 v hv))
      simp only [hf, if_false, Bool.false_eq_true, List.nil_append]
      refine ⟨hrest.1, fun f hf2 => ?_⟩
      have := hrest.2 f hf2
      rwa [hc] at this

/-! Claim theorems. -/

/-- C1 (amended): when any domain's reward computation fails while the
reweighting guard holds, the whole cycle aborts before committing
anything — the active probability vector, the sampling log and the
last-reweighting counter are unchanged and no reweighting fires — but
the exception is not caught inside `train_step`: it escapes, so the
training step does not complete and no warning is logged. -/
theorem C1_failure_aborts_cycle {n : ℕ} {A : Type} (cfg : Config) (env : Env n A)
    (st : TaskState n A) (u : ℕ) (i : Fin n) (e : EstErr)
    (hguard : reweightGuard cfg st.currentSamplingUpdateNum u env.hasActor = true)
    (hfail : env.est i = Except.error e) :
    (trainStep cfg env st u).raised.isSome = true ∧
    (trainStep cfg env st u).fired = false ∧
    (trainStep cfg env st u).state.p = st.p ∧
    (trainStep cfg env st u).state.samplingLog = st.samplingLog ∧
    (trainStep cfg env st u).state.currentSamplingUpdateNum =
      st.currentSamplingUpdateNum := by
  have hmem : Except.error e ∈ (List.finRange n).map env.est :=
    List.mem_map.mpr ⟨i, List.mem_finRange i, hfail⟩
  obtain ⟨e2, herr⟩ := collectRewards_error_of_mem _ e hmem
  have hupd : updateSampleProbability cfg env (maybePretrain env st).actor =
      Except.error e2 := by
    unfold updateSampleProbability
    rw [herr]
  unfold trainStep
  split
  case isTrue hg =>
    rcases h : updateSampleProbability cfg env (maybePretrain env st).actor with e3 | ap
    · exact ⟨rfl, rfl, maybePretrain_p env st, maybePretrain_samplingLog env st,
        maybePretrain_current env st⟩
    · exact (Except.noConfusion (hupd.symm.trans h))
  case isFalse hg =>
    rw [maybePretrain_current env st] at hg
    exact absurd hguard hg

/-- C1 witness: with three domains, the default configuration and a
cycle in which every estimation fails, the failed `train_step` at update
number 2000 leaves all controller state unchanged and raises. -/
theorem C1_witness :
    (trainStep defaultConfig envFail stC 2000).raised.isSome = true ∧
    (trainStep defaultConfig envFail stC 2000).fired = false ∧
    (trainStep defaultConfig envFail stC 2000).state.p = stC.p ∧
    (trainStep defaultConfig envFail stC 2000).state.samplingLog = stC.samplingLog ∧
    (trainStep defaultConfig envFail stC 2000).state.currentSamplingUpdateNum =
      stC.currentSamplingUpdateNum :=
  C1_failure_aborts_cycle defaultConfig envFail stC 2000 0 EstErr.estimationFailure
    rfl rfl

/-- C1 counterexample: at a concrete reweighting step whose reward
computation fails, `train_step` lets the `EstimationFailure` escape —
contradicting the claim that the failure is caught, a warning is logged
and the training step still completes. -/
theorem C1_counterexample :
    (trainStep defaultConfig envFail stC 2000).raised = some EstErr.estimationFailure ∧
    (trainStep defaultConfig envFail stC 2000).raised ≠ none := by
  have h : (trainStep defaultConfig envFail stC 2000).raised =
      some EstErr.estimationFailure := rfl
  exact ⟨h, by rw [h]; exact Option.some_ne_none _⟩

/-- C2: starting from the size-based initial distribution, after any
sequence of train-step calls the active probability vector has
non-negative entries and sums to 1 within the 1e-6 tolerance (the sum is
exactly 1: the initial vector is a normalized power of the sizes and
every reweighting installs a softmax). -/
theorem C2_prob_vector_invariant {A : Type} (n : ℕ) (hn : 0 < n)
    (sizes : Fin n → ℝ) (hs : ∀ i, 0 < sizes i) (T : ℝ) (cfg : Config) (a0 : A)
    (trace : List (ℕ × Env n A)) :
    (∀ i, 0 ≤ (runTrace cfg trace (initState n sizes T a0)).1.p i) ∧
      |(∑ i, (runTrace cfg trace (initState n sizes T a0)).1.p i) - 1| ≤ 0.000001 := by
  have h0n : ∀ i, 0 ≤ (initState n sizes T a0).p i :=
    fun i => initialProb_nonneg n sizes T hs i
  have h0s : ∑ i, (initState n sizes T a0).p i = 1 :=
    initialProb_sum_one n hn sizes T hs
  have h := runTrace_prob_invariant cfg hn trace (initState n sizes T a0) h0n h0s
  refine ⟨h.1, ?_⟩
  rw [h.2]
  norm_num

/-- C2 witness: the spec's three-domain example, sizes 100/400/500 at
temperature 1, with an empty trace. -/
theorem C2_witness :
    (∀ i, 0 ≤ (runTrace defaultConfig ([] : List (ℕ × Env 3 Unit))
        (initState 3 sizesW 1 ())).1.p i) ∧
      |(∑ i, (runTrace defaultConfig ([] : List (ℕ × Env 3 Unit))
        (initState 3 sizesW 1 ())).1.p i) - 1| ≤ 0.000001 :=
  C2_prob_vector_invariant 3 (by decide) sizesW
    (by intro i; fin_cases i <;> norm_num [sizesW]) 1 defaultConfig () []

/-- C3 (amended): `setup_task` never inspects the reward metric — its
outcome is identical for any two `reward_type` values — so an unknown
metric kind is not rejected at setup; it first raises the undefined-reward
error inside the reward dispatch of a reweighting cycle. -/
theorem C3_validation_not_at_setup (env : SetupEnv) (cfg : Config) (r1 r2 : String)
    (rt : String) (h1 : rt ≠ "enttp") (h2 : rt ≠ "enteos") (h3 : rt ≠ "pretp")
    (h4 : rt ≠ "exptp") (h5 : rt ≠ "vartp") (h6 : rt ≠ "comtp")
    (h7 : rt ≠ "xentropy") :
    setupTask env { cfg with rewardType := r1 } =
      setupTask env { cfg with rewardType := r2 } ∧
      rewardDispatch rt = Except.error EstErr.undefinedReward := by
  refine ⟨rfl, ?_⟩
  simp [rewardDispatch, h1, h2, h3, h4, h5, h6, h7]

/-- C3 witness: an unrecognized reward type does not change the setup
outcome and is rejected only by the dispatch chain. -/
theorem C3_witness :
    setupTask setupEnvOk { defaultConfig with rewardType := bogusKind } =
      setupTask setupEnvOk { defaultConfig with rewardType := defaultConfig.rewardType } ∧
      rewardDispatch bogusKind = Except.error EstErr.undefinedReward :=
  C3_validation_not_at_setup setupEnvOk defaultConfig bogusKind defaultConfig.rewardType
    bogusKind (by decide) (by decide) (by decide) (by decide) (by decide) (by decide)
    (by decide)

/-- C3 counterexample: with an unknown reward type, setup succeeds (no
configuration error is raised there) and the error first appears in the
reward dispatch used during a reweighting cycle — contradicting the claim
that the configuration error is raised at setup time. -/
theorem C3_counterexample :
    setupTask setupEnvOk
        { defaultConfig with data := some dataDirStr, rewardType := bogusKind } =
      Except.ok (deStr, enStr) ∧
      rewardDispatch bogusKind = Except.error EstErr.undefinedReward := by
  exact ⟨rfl, rfl⟩

/-- C4 (code bug): the dataclass default `reward_type` is the string
entropy and the option's help text lists entropy as a valid value, yet
the dispatch chain in `update_sample_probability` has no branch for it,
so the default configuration raises `RuntimeError("undefined reward")`
at the first reweighting cycle. -/
theorem C4_default_entropy_rejected :
    defaultConfig.rewardType = "entropy" ∧
    rewardDispatch defaultConfig.rewardType = Except.error EstErr.undefinedReward := by
  exact ⟨rfl, rfl⟩

/-- C7: along any trace of train-step calls whose update numbers are
non-decreasing (the global update counter), starting from a fresh guard
key, the update numbers at which a reweighting cycle commits are pairwise
distinct — at most one reweighting fires per step id. -/
theorem C7_at_most_one_reweight_per_step {n : ℕ} {A : Type} (cfg : Config)
    (st0 : TaskState n A) (trace : List (ℕ × Env n A))
    (hs : (trace.map Prod.fst).Sorted (· ≤ ·))
    (h0 : st0.currentSamplingUpdateNum = 0) :
    (runTrace cfg trace st0).2.Nodup := by
  have h := runTrace_fired_chain cfg trace st0 hs
    (fun v _ => by rw [h0]; exact Nat.zero_le v)
  exact h.1.imp (fun hab => ne_of_lt hab)

/-- C7 witness: three calls at update numbers 2, 2 and 4 with interval 2;
the committed reweighting steps are pairwise distinct. -/
theorem C7_witness :
    (traceW.map Prod.fst).Sorted (· ≤ ·) ∧ (runTrace cfgTwo traceW stZero).2.Nodup := by
  have hsor : (traceW.map Prod.fst).Sorted (· ≤ ·) := by
    simp [traceW, List.sorted_cons]
  exact ⟨hsor, C7_at_most_one_reweight_per_step cfgTwo stZero traceW hsor rfl⟩

/-- C10: `write_sampling_log` skips only when the configured path is
`None`; any other path — including the empty string, which is the
dataclass default — passes the guard and the open-for-append is
attempted, which fails on the empty path. -/
theorem C10_log_guard :
    (∀ log line, writeSamplingLog none log line = Except.ok log) ∧
    (∀ p log line, p ≠ emptyPath →
      writeSamplingLog (some p) log line = Except.ok (log ++ [line])) ∧
    (∀ log line, writeSamplingLog (some emptyPath) log line =
      Except.error LogWriteError.fileNotFound) ∧
    defaultConfig.samplePlog = some emptyPath := by
  refine ⟨fun log line => rfl, fun p log line hp => ?_, fun log line => rfl, rfl⟩
  simp [writeSamplingLog, openAppendOk, bne_iff_ne, hp]

/-- C10 witness: a non-empty path passes the guard and the line is
appended. -/
theorem C10_witness :
    writeSamplingLog (some xPath) [] emptyPath = Except.ok [emptyPath] :=
  C10_log_guard.2.1 xPath [] emptyPath (by decide)

/-- C5 (amended): the pretraining loop `while l > 0.00000001` exits when
and only when some iterate's measured loss reaches the threshold — there
is no step cap and no convergence warning in the source, so when the
optimizer never brings the loss to the threshold the loop runs forever. -/
theorem C5_loop_exit_characterization (n : ℕ) {A : Type} (gstep : A → A)
    (al : A → Fin n → ℝ) (target : Fin n → ℝ) (a0 : A) :
    pretrainReturns n gstep al target a0 ↔
      ∃ k, pretrainExitsAt n gstep al target a0 k := by
  constructor
  · intro h
    classical
    obtain ⟨k, hk⟩ := h
    have hex : ∃ m,
        pretrainLoss n al target (pretrainState gstep a0 m) ≤ pretrainThreshold :=
      ⟨k, hk⟩
    exact ⟨Nat.find hex, Nat.find_spec hex,
      fun j hj => not_le.mp (Nat.find_min hex hj)⟩
  · rintro ⟨k, hk⟩
    exact ⟨k, hk.1⟩

/-- C5 counterexample: with an optimizer step that leaves the actor
unchanged and a target the constant policy cannot fit, every iterate's
loss stays at 1/4, so the pretraining loop never exits — contradicting
the claim that pretraining always terminates via a threshold or a finite
step cap. -/
theorem C5_counterexample : ¬ pretrainReturns 2 id id skewTarget zeroLogits := by
  rintro ⟨k, hk⟩
  simp only [pretrainState, Function.iterate_id, id_eq] at hk
  norm_num [pretrainLoss, mseLoss, softmax, zeroLogits, skewTarget, Fin.sum_univ_two,
    Real.exp_zero, pretrainThreshold, Matrix.cons_val_zero, Matrix.cons_val_one,
    Matrix.head_cons] at hk

/-- C6 (amended): when the pretraining loop exits at iteration `k`, the
loss it measured there is at most 1e-8, so at the measured parameters the
softmax matches the target within total squared error below 1e-6 for any
domain count below 100; the vector the source then reports is taken one
further optimizer step past this measurement, so the bound applies to the
measured parameters, not to the returned vector. -/
theorem C6_threshold_at_measurement (n : ℕ) {A : Type} (hn : 0 < n) (hcap : n < 100)
    (gstep : A → A) (al : A → Fin n → ℝ) (target : Fin n → ℝ) (a0 : A) (k : ℕ)
    (hex : pretrainExitsAt n gstep al target a0 k) :
    ∑ i, (softmax n (al (pretrainState gstep a0 k)) i - target i) ^ 2 < 0.000001 := by
  have h1 := hex.1
  unfold pretrainLoss mseLoss pretrainThreshold at h1
  have hn0 : (0 : ℝ) < n := by exact_mod_cast hn
  rw [div_le_iff₀ hn0] at h1
  have hn99 : (n : ℝ) ≤ 99 := by
    have h : n ≤ 99 := Nat.lt_succ_iff.mp hcap
    exact_mod_cast h
  have hb : (0.00000001 : ℝ) * n ≤ 0.00000001 * 99 := by nlinarith
  calc ∑ i, (softmax n (al (pretrainState gstep a0 k)) i - target i) ^ 2
      ≤ 0.00000001 * n := h1
    _ ≤ 0.00000001 * 99 := hb
    _ < 0.000001 := by norm_num

/-- C6 witness: two domains whose initial softmax already equals the
uniform target, with an identity optimizer step; the loop exits at the
first measurement and the measured squared error is below 1e-6. -/
theorem C6_witness :
    pretrainExitsAt 2 id id halfTarget zeroLogits 0 ∧
    ∑ i, (softmax 2 (id (pretrainState id zeroLogits 0)) i - halfTarget i) ^ 2 <
      0.000001 := by
  have hex : pretrainExitsAt 2 id id halfTarget zeroLogits 0 := by
    constructor
    · norm_num [pretrainLoss, pretrainState, mseLoss, softmax, zeroLogits, halfTarget,
        Function.iterate_zero, id_eq, Fin.sum_univ_two, Real.exp_zero, pretrainThreshold]
    · intro j hj
      exact absurd hj (Nat.not_lt_zero j)
  exact ⟨hex,
    C6_threshold_at_measurement 2 (by decide) (by decide) id id halfTarget zeroLogits 0 hex⟩

/-- C6 counterexample: an optimizer step that jumps to the logits
`(10, 0)`.  The loop measures a loss of 0 at the initial parameters and
exits, but the exiting iteration still applied that step, so the
probability vector actually reported has mean squared error far above
1e-6 against the target — contradicting the claim that the returned
softmax always matches the target within squared error below 1e-6. -/
theorem C6_counterexample :
    pretrainExitsAt 2 jumpStep id halfTarget zeroLogits 0 ∧
    ¬ (mseLoss 2 (pretrainFinalProb 2 jumpStep id zeroLogits 0) halfTarget <
        0.000001) := by
  constructor
  · constructor
    · norm_num [pretrainLoss, pretrainState, mseLoss, softmax, zeroLogits, halfTarget,
        Function.iterate_zero, id_eq, Fin.sum_univ_two, Real.exp_zero, pretrainThreshold]
    · intro j hj
      exact absurd hj (Nat.not_lt_zero j)
  · have hfin : pretrainFinalProb 2 jumpStep id zeroLogits 0 = softmax 2 ![10, 0] := by
      simp [pretrainFinalProb, pretrainState, jumpStep]
    rw [not_lt, hfin]
    have hE : (11 : ℝ) ≤ Real.exp 10 := by
      have h := Real.add_one_le_exp (10 : ℝ)
      linarith
    simp only [mseLoss, softmax, Fin.sum_univ_two, halfTarget, Matrix.cons_val_zero,
      Matrix.cons_val_one, Matrix.head_cons, Real.exp_zero, Nat.cast_ofNat]
    set E := Real.exp 10 with hEd
    have hd : (0 : ℝ) < E + 1 := by linarith
    have h34 : (3 : ℝ) / 4 ≤ E / (E + 1) := by
      rw [le_div_iff₀ hd]
      linarith
    have hsq : (1 : ℝ) / 16 ≤ (E / (E + 1) - 1 / 2) ^ 2 := by nlinarith
    have h2 : (0 : ℝ) ≤ (1 / (E + 1) - 1 / 2) ^ 2 := sq_nonneg _
    linarith

/-- C8 (amended): the pretp reward equals one minus the Monte-Carlo mean
of the batch-mean sequence confidence (the exponential of the masked sum
of per-position max log-probabilities, i.e. the product of max token
probabilities over non-padding positions), and it is strictly decreasing
in that mean confidence: a probe evaluation with higher mean sequence
confidence yields a strictly smaller reward. -/
theorem C8_pretp_strictly_decreasing (K B T V padIdx : ℕ)
    (target : Fin (B + 1) → Fin T → ℕ)
    (logp1 logp2 : Fin (K + 1) → Fin (B + 1) → Fin T → Fin (V + 1) → ℝ)
    (h : pretpMeanConf K B T V (padMask B T padIdx target) logp1 <
      pretpMeanConf K B T V (padMask B T padIdx target) logp2) :
    pretpReward K B T V padIdx target logp2 < pretpReward K B T V padIdx target logp1 := by
  unfold pretpReward
  linarith

/-- C8 witness: one trial, one sentence, one position; max log-probability
`-log 2` gives mean confidence 1/2 while max log-probability 0 gives mean
confidence 1, and the rewards are ordered the other way. -/
theorem C8_witness :
    pretpMeanConf 0 0 1 0 (padMask 0 1 0 cTargetOnes1) cLogpHalf1 <
      pretpMeanConf 0 0 1 0 (padMask 0 1 0 cTargetOnes1) cLogpZero1 ∧
    pretpReward 0 0 1 0 0 cTargetOnes1 cLogpZero1 <
      pretpReward 0 0 1 0 0 cTargetOnes1 cLogpHalf1 := by
  have hexp : Real.exp (-Real.log 2) = 1 / 2 := by
    rw [Real.exp_neg, Real.exp_log] <;> norm_num
  have h : pretpMeanConf 0 0 1 0 (padMask 0 1 0 cTargetOnes1) cLogpHalf1 <
      pretpMeanConf 0 0 1 0 (padMask 0 1 0 cTargetOnes1) cLogpZero1 := by
    norm_num [pretpMeanConf, pretpTrial, vocabMax, padMask, cTargetOnes1, cLogpHalf1,
      cLogpZero1, Fin.sum_univ_one, Finset.sup'_const, hexp, Real.exp_zero]
  exact ⟨h, C8_pretp_strictly_decreasing 0 0 1 0 0 cTargetOnes1 cLogpHalf1 cLogpZero1 h⟩

/-- C8 counterexample: a probe with two non-padding positions whose max
probability is 1/2 at each position across one trial.  The code computes
`1 - exp(log(1/2) + log(1/2)) = 3/4`, while one minus the mean max
probability over the positions is `1 - 1/2 = 1/2` — the reward is not the
claimed confidence-deficit formula. -/
theorem C8_counterexample :
    pretpReward 0 0 2 0 0 cTargetOnes2 cLogpHalf2 = 3 / 4 ∧
    specConfidenceDeficit 0 0 2 0 0 cTargetOnes2 cLogpHalf2 = 1 / 2 ∧
    pretpReward 0 0 2 0 0 cTargetOnes2 cLogpHalf2 ≠
      specConfidenceDeficit 0 0 2 0 0 cTargetOnes2 cLogpHalf2 := by
  have hexp : Real.exp (-Real.log 2) = 1 / 2 := by
    rw [Real.exp_neg, Real.exp_log] <;> norm_num
  have hexp2 : Real.exp (-(2 * Real.log 2)) = 1 / 4 := by
    have hs : -(2 * Real.log 2) = -Real.log 2 + -Real.log 2 := by ring
    rw [hs, Real.exp_add, hexp]
    norm_num
  have h1 : pretpReward 0 0 2 0 0 cTargetOnes2 cLogpHalf2 = 3 / 4 := by
    norm_num [pretpReward, pretpMeanConf, pretpTrial, vocabMax, padMask, cTargetOnes2,
      cLogpHalf2, Fin.sum_univ_two, Fin.sum_univ_one, Finset.sup'_const, Real.exp_add,
      hexp, hexp2]
  have h2 : specConfidenceDeficit 0 0 2 0 0 cTargetOnes2 cLogpHalf2 = 1 / 2 := by
    norm_num [specConfidenceDeficit, vocabMax, padMask, cTargetOnes2, cLogpHalf2,
      Fin.sum_univ_two, Fin.sum_univ_one, Finset.sup'_const, hexp]
  refine ⟨h1, h2, ?_⟩
  rw [h1, h2]
  norm_num

/-- C9 (amended): a degenerate probe batch is not a raised failure: the
entropy rewards divide the masked entropy sum by the mask sum with no
guard, so with zero valid positions the reward estimation silently
returns a number (the total-division value 0 in this embedding; `0/0`
evaluates to NaN in the implementation) instead of raising. -/
theorem C9_degenerate_mask_silent (K B T V padIdx eosIdx : ℕ)
    (target : Fin (B + 1) → Fin T → ℕ)
    (probs : Fin (K + 1) → Fin (B + 1) → Fin T → Fin (V + 1) → ℝ)
    (hpad : ∀ b t, target b t = padIdx) (hne : padIdx ≠ eosIdx) :
    enttpReward K B T V padIdx target probs = 0 ∧
    enteosReward K B T V eosIdx target probs = 0 := by
  have hm : ∀ b t, padMask B T padIdx target b t = 0 := by
    intro b t
    simp [padMask, hpad b t]
  have he : ∀ b t, eosMask B T eosIdx target b t = 0 := by
    intro b t
    simp only [eosMask, hpad b t]
    exact if_neg hne
  constructor
  · simp [enttpReward, entTrial, hm]
  · simp [enteosReward, entTrial, he]

/-- C9 witness: a probe whose single target position is padding (and is
not the end-of-sequence symbol); both entropy rewards return 0 silently. -/
theorem C9_witness :
    enttpReward 0 0 1 0 1 cTargetPad cProbsOne = 0 ∧
    enteosReward 0 0 1 0 2 cTargetPad cProbsOne = 0 :=
  C9_degenerate_mask_silent 0 0 1 0 1 2 cTargetPad cProbsOne (fun _ _ => rfl)
    (by decide)

/-- C9 counterexample: at a concrete probe batch whose mask sums to zero,
reward estimation still produces a plain numeric value — there is no
raised error, contradicting the claim that the degenerate mask is a
distinguishable raised failure. -/
theorem C9_counterexample :
    maskSum 0 1 (padMask 0 1 1 cTargetPad) = 0 ∧
    enttpReward 0 0 1 0 1 cTargetPad cProbsOne = 0 := by
  constructor
  · simp [maskSum, padMask, cTargetPad]
  · simp [enttpReward, entTrial, padMask, cTargetPad]

end MultiUAT
